import Mathlib

/-!
Shallow embedding of the `guitarchannels/crawler` repository core:
`src/scraper/video_scraper.rs` (freshness policy and item ingestion
pipeline) and `src/crawler/channel_discovery_crawler.rs` (discovery
gate and discovery loop).  External collaborators (HTTP client,
Mongo repositories, YouTube API, classifier) are modelled as oracle
fields of an environment structure; machine integers (`i64`
timestamps) are modelled as `Int`.
-/

namespace Crawler

/-! ## Constants (video_scraper.rs lines 18-21, utils::consts) -/

def YOUTUBE_VIDEO_FEED_BASE_URL : String := "https://www.youtube.com/feeds/videos.xml"

def ONE_HOUR_IN_SECONDS : Int := 3600

def ONE_DAY_IN_SECONDS : Int := 86400

def ONE_WEEK_IN_SECONDS : Int := 604800

/-- Constant `utils::consts::ONE_DAYS_IN_SECONDS`, used by the discovery crawler. -/
def ONE_DAYS_IN_SECONDS : Int := 86400

/-! ## Feed / detail data (models referenced by video_scraper.rs) -/

/-- The `media:group` part of a feed entry; only `description` is read. -/
structure MediaGroup where
  description : String
  deriving DecidableEq, Repr

/-- One `<entry>` of the YouTube video feed.  The source stores
`published` as an RFC3339 string and parses it inside `scrape` with
`DateTime::parse_from_rfc3339(...)?`; the parse result is modelled as
`Option Int` (`none` = unparsable, which makes `scrape` return an
error at that entry, as the `?` does). -/
structure Entry where
  video_id : String
  title : String
  published : Option Int
  group : MediaGroup
  deriving DecidableEq, Repr

structure VideoStatus where
  privacy_status : String
  deriving DecidableEq, Repr

structure VideoStatistics where
  view_count : String
  like_count : Option String
  comment_count : Option String
  deriving DecidableEq, Repr

structure VideoSnippet where
  tags : Option (List String)
  default_language : Option String
  deriving DecidableEq, Repr

/-- Model of `models::youtube_video_details::YouTubeVideoItem` (the fields the
scraper reads). -/
structure YouTubeVideoItem where
  status : VideoStatus
  statistics : VideoStatistics
  snippet : VideoSnippet
  deriving DecidableEq, Repr

/-! ## Freshness policy: `should_update_video` (video_scraper.rs 154-185) -/

/-- Direct translation of `should_update_video`.  The Rust function
reads `Utc::now()`; here `now` is an explicit argument.  The
`HashMap<String, DateTime<Utc>>` lookup is a function
`String → Option Int` (timestamps in seconds).  The mutable
`uploaded_later_than_threshold` cascade is rendered as chained `let`s
in source order. -/
def should_update_video (now : Int) (updated_lookup : String → Option Int)
    (video_id : String) (published_at : Int) : Bool :=
  match updated_lookup video_id with
  | none => true
  | some updated_at =>
    let threshold0 := ONE_HOUR_IN_SECONDS * 3
    let published_since_seconds := |now - published_at|
    let threshold1 :=
      if published_since_seconds ≥ ONE_WEEK_IN_SECONDS then ONE_DAY_IN_SECONDS
      else threshold0
    let threshold2 :=
      if published_since_seconds ≥ 4 * ONE_WEEK_IN_SECONDS then ONE_WEEK_IN_SECONDS
      else threshold1
    let threshold3 :=
      if published_since_seconds ≥ 6 * 4 * ONE_WEEK_IN_SECONDS then 4 * ONE_WEEK_IN_SECONDS
      else threshold2
    let updated_time_diff := |now - updated_at|
    decide (updated_time_diff ≥ threshold3)

/-- The staircase threshold exactly as the spec words it: 3 hours for
age ≥ 0, 1 day for age ≥ 1 week, 1 week for age ≥ 4 weeks, 4 weeks for
age ≥ 24 weeks, inclusive lower bounds (spec-side definition, to be
compared with the cascade inside `should_update_video`). -/
def thresholdSpec (age : Int) : Int :=
  if age ≥ 24 * ONE_WEEK_IN_SECONDS then 4 * ONE_WEEK_IN_SECONDS
  else if age ≥ 4 * ONE_WEEK_IN_SECONDS then ONE_WEEK_IN_SECONDS
  else if age ≥ ONE_WEEK_IN_SECONDS then ONE_DAY_IN_SECONDS
  else 3 * ONE_HOUR_IN_SECONDS

theorem thresholdSpec_ge_three_hours (age : Int) :
    3 * ONE_HOUR_IN_SECONDS ≤ thresholdSpec age := by
  unfold thresholdSpec ONE_HOUR_IN_SECONDS ONE_WEEK_IN_SECONDS ONE_DAY_IN_SECONDS
  split <;> [omega; split <;> [omega; split <;> omega]]

theorem should_update_video_spec (now : Int) (updated_lookup : String → Option Int)
    (video_id : String) (published_at : Int) (u : Int)
    (h : updated_lookup video_id = some u) :
    should_update_video now updated_lookup video_id published_at
      = decide (|now - u| ≥ thresholdSpec |now - published_at|) := by
  unfold should_update_video thresholdSpec
  simp only [h, ONE_HOUR_IN_SECONDS, ONE_WEEK_IN_SECONDS, ONE_DAY_IN_SECONDS,
    decide_eq_decide]
  split_ifs <;> omega

/-- C1 (amended): with a prior `updatedAt`, the policy refreshes iff
`|now − updatedAt| ≥ threshold(|now − publishedAt|)` with the inclusive
staircase; with no prior `updatedAt` it always refreshes; a gap below
3 hours never refreshes; and a *near*-future item (less than one week
ahead of `now`) falls in the 3-hour bucket — a farther-future item
does not (see the counterexample). -/
theorem C1_freshness_policy (now : Int) (updated_lookup : String → Option Int)
    (video_id : String) (published_at : Int) :
    (updated_lookup video_id = none →
      should_update_video now updated_lookup video_id published_at = true) ∧
    (∀ u, updated_lookup video_id = some u →
      (should_update_video now updated_lookup video_id published_at = true ↔
        |now - u| ≥ thresholdSpec |now - published_at|)) ∧
    (∀ u, updated_lookup video_id = some u →
      |now - u| < 3 * ONE_HOUR_IN_SECONDS →
      should_update_video now updated_lookup video_id published_at = false) ∧
    (|now - published_at| < ONE_WEEK_IN_SECONDS →
      thresholdSpec |now - published_at| = 3 * ONE_HOUR_IN_SECONDS) := by
  refine ⟨fun h => ?_, fun u h => ?_, fun u h hlt => ?_, fun h => ?_⟩
  · unfold should_update_video
    simp [h]
  · rw [should_update_video_spec now updated_lookup video_id published_at u h]
    simp
  · rw [should_update_video_spec now updated_lookup video_id published_at u h]
    have := thresholdSpec_ge_three_hours |now - published_at|
    simp only [decide_eq_false_iff_not, ge_iff_le, not_le]
    omega
  · unfold thresholdSpec
    unfold ONE_HOUR_IN_SECONDS ONE_WEEK_IN_SECONDS ONE_DAY_IN_SECONDS at *
    split_ifs <;> omega

/-- Lookup used by the C1 counterexample: the video has a prior
`updatedAt` of `-14400`, i.e. a refresh gap of 4 hours at `now = 0`. -/
def lkC1 : String → Option Int := fun v => if v = "v" then some (-14400) else none

/-- C1 counterexample: an item published one week in the future
(`publishedAt = 604800`, `now = 0`) does *not* fall in the 3-hour
bucket: its refresh gap is 4 hours ≥ 3 hours, yet the policy answers
`false` (the absolute age 604800 selects the 1-day tier). -/
theorem C1_counterexample :
    (0 : Int) < 604800 ∧
    |(0 : Int) - (-14400)| ≥ 3 * ONE_HOUR_IN_SECONDS ∧
    should_update_video 0 lkC1 ("v") 604800 = false := by
  refine ⟨by norm_num, ?_, by decide⟩
  unfold ONE_HOUR_IN_SECONDS
  norm_num

/-- Lookup used by the C1 witness. -/
def lkW1 : String → Option Int := fun _ => some 0

/-- Witness for C1: the amended theorem applied at `now = 10800`,
`publishedAt = 0`, prior `updatedAt = 0`. -/
theorem C1_witness :
    should_update_video 10800 lkW1 ("v") 0 = true ↔
      |(10800 : Int) - 0| ≥ thresholdSpec |(10800 : Int) - 0| :=
  (C1_freshness_policy 10800 lkW1 ("v") 0).2.1 0 rfl

/-! ## Video store (the `videos` collection behind `VideoRepository`) -/

/-- The normalized record built by `build_video_document` (the `doc!`
at video_scraper.rs 130-148). -/
structure VideoDoc where
  id : String
  title : String
  description : String
  publishedAt : Int
  updatedAt : Int
  views : Int
  likes : Int
  comments : Int
  channel : String
  tags : List String
  defaultLanguage : Option String
  deriving DecidableEq, Repr

/-- The video collection: association list keyed by `_id`. -/
abbrev VideoStore := List (String × VideoDoc)

def lookupStore : VideoStore → String → Option VideoDoc
  | [], _ => none
  | (k, d) :: rest, key => if k = key then some d else lookupStore rest key

/-- Operation `VideoRepository::upsert`: replace the record at `key`, or insert it. -/
def storeUpsert : VideoStore → String → VideoDoc → VideoStore
  | [], key, d => [(key, d)]
  | (k, e) :: rest, key, d =>
    if k = key then (key, d) :: rest else (k, e) :: storeUpsert rest key d

/-- Operation `VideoRepository::delete`: remove the record keyed `key`. -/
def storeDelete (s : VideoStore) (key : String) : VideoStore :=
  s.filter fun kv => kv.1 ≠ key

/-- Operation `VideoRepository::count(channel_id)`: number of stored videos whose
`channel` field equals `channel_id`. -/
def storeCount (s : VideoStore) (channel_id : String) : Nat :=
  (s.filter fun kv => kv.2.channel = channel_id).length

/-- Operation `VideoRepository::get_updated_lookup(channel_id)`: map from video id
to `updatedAt` over the stored videos of this channel. -/
def updatedLookup (s : VideoStore) (channel_id : String) : String → Option Int :=
  fun vid =>
    match lookupStore s vid with
    | some d => if d.channel = channel_id then some d.updatedAt else none
    | none => none

/-! ## Ingestion pipeline: `VideoScraper::scrape` (video_scraper.rs 42-151, 187-211) -/

/-- Outcome of a fallible step: `ok`, a returned `anyhow::Error`, or a
Rust panic (the `.expect(...)` in `load_and_parse_video_feed`). -/
inductive Res (α : Type) where
  | ok (a : α)
  | error (e : String)
  | panic (msg : String)
  deriving DecidableEq, Repr

def resIsOk : Res α → Bool
  | .ok _ => true
  | _ => false

def resIsError : Res α → Bool
  | .error _ => true
  | _ => false

def resIsPanic : Res α → Bool
  | .panic _ => true
  | _ => false

/-- External collaborators and fault injection for one `scrape` call:
the HTTP response for the feed URL (transport error, or status+body),
the XML parser (`none` = unparsable, which the source turns into a
panic via `.expect`), the per-video detail fetch, and failure flags
for the repository operations the source applies `?` to (plus
`countFails` for the count query inside the rollup). -/
structure ScrapeEnv where
  httpResp : Except String (Nat × String)
  parseFeed : String → Option (List Entry)
  get_video_details : String → Except String YouTubeVideoItem
  getLookupFails : Bool
  upsertFails : Bool
  deleteFails : Bool
  countFails : Bool

/-- Translation of `load_and_parse_video_feed` (video_scraper.rs 187-211): non-200 is
an error; the `yt:`/`media:` prefixes are stripped from the body; an
unparsable body panics with the source's `expect` message. -/
def load_and_parse_video_feed (env : ScrapeEnv) (channel_id : String) :
    Res (List Entry) :=
  let feed_url := YOUTUBE_VIDEO_FEED_BASE_URL ++ "?channel_id=" ++ channel_id
  match env.httpResp with
  | .error e => .error e
  | .ok (status, body) =>
    if status ≠ 200 then
      .error ("Youtube Video Feed Response Error: " ++ toString status)
    else
      let xml := (body.replace ("yt:") "yt").replace ("media:") "media"
      match env.parseFeed xml with
      | none => .panic (feed_url ++ ", xml string length " ++ toString xml.length)
      | some channel_feed => .ok channel_feed

/-- Translation of `build_video_document` (video_scraper.rs 107-151).  `Utc::now()` is
the explicit `now`; `parse::<i64>().unwrap_or_default()` is
`String.toInt?` defaulting to 0. -/
def build_video_document (channel_id : String) (entry : Entry) (published : Int)
    (now : Int) (video_details : YouTubeVideoItem) : VideoDoc :=
  let views := (video_details.statistics.view_count.toInt?).getD 0
  let likes :=
    match video_details.statistics.like_count with
    | some l => (l.toInt?).getD 0
    | none => 0
  let comments :=
    match video_details.statistics.comment_count with
    | some c => (c.toInt?).getD 0
    | none => 0
  { id := entry.video_id
    title := entry.title
    description := entry.group.description
    publishedAt := published
    updatedAt := now
    views := views
    likes := likes
    comments := comments
    channel := channel_id
    tags := (video_details.snippet.tags).getD []
    defaultLanguage := video_details.snippet.default_language }

/-- Observable state of one `scrape` call: the store plus the
`max_last_upload_timestamp` accumulator and a log of the repository
operations performed (ids upserted, ids deleted, and the
`(count, lastUpload)` pair written by the rollup, if reached). -/
structure ScrapeState where
  store : VideoStore
  maxLast : Int
  upserts : List String
  deletes : List String
  rollup : Option (Nat × Int)
  deriving DecidableEq, Repr

def initScrapeState (store : VideoStore) : ScrapeState :=
  { store := store, maxLast := 0, upserts := [], deletes := [], rollup := none }

/-- The per-entry loop of `scrape` (video_scraper.rs 48-81), threading
the state left to right in feed order.  `updated_lookup` is the
snapshot read once before the loop.  Each `?` in the source becomes an
`.error` return that keeps the effects committed so far. -/
def scrape_entries (env : ScrapeEnv) (channel_id : String) (now : Int)
    (updated_lookup : String → Option Int) :
    List Entry → ScrapeState → Res Unit × ScrapeState
  | [], st => (.ok (), st)
  | entry :: rest, st =>
    match entry.published with
    | none => (.error ("published parse error"), st)
    | some published =>
      if should_update_video now updated_lookup entry.video_id published then
        match env.get_video_details entry.video_id with
        | .error e => (.error e, st)
        | .ok video_details =>
          if video_details.status.privacy_status ≠ "public" then
            if env.deleteFails then (.error ("delete failed"), st)
            else
              scrape_entries env channel_id now updated_lookup rest
                { st with
                  store := storeDelete st.store channel_id
                  deletes := st.deletes ++ [channel_id] }
          else
            let vid := build_video_document channel_id entry published now video_details
            let maxLast := if published > st.maxLast then published else st.maxLast
            if env.upsertFails then (.error ("upsert failed"), st)
            else
              scrape_entries env channel_id now updated_lookup rest
                { st with
                  store := storeUpsert st.store entry.video_id vid
                  maxLast := maxLast
                  upserts := st.upserts ++ [entry.video_id] }
      else scrape_entries env channel_id now updated_lookup rest st

/-- Translation of `update_channel_video_stats` (video_scraper.rs 89-105): the count
query uses `?` (can fail); the `set_video_count_last_upload` write is
awaited without `?` and cannot fail at this call site. -/
def update_channel_video_stats (env : ScrapeEnv) (channel_id : String)
    (max_last_upload_timestamp : Int) (st : ScrapeState) : Res Unit × ScrapeState :=
  if env.countFails then (.error ("count failed"), st)
  else
    let videos_per_channel := storeCount st.store channel_id
    (.ok (), { st with rollup := some (videos_per_channel, max_last_upload_timestamp) })

/-- Translation of `VideoScraper::scrape` (video_scraper.rs 42-87). -/
def scrape (env : ScrapeEnv) (channel_id : String) (now : Int)
    (store : VideoStore) : Res Unit × ScrapeState :=
  match load_and_parse_video_feed env channel_id with
  | .error e => (.error e, initScrapeState store)
  | .panic m => (.panic m, initScrapeState store)
  | .ok channel_feed =>
    if env.getLookupFails then (.error ("updated lookup failed"), initScrapeState store)
    else
      let updated_lookup := updatedLookup store channel_id
      match scrape_entries env channel_id now updated_lookup channel_feed
        (initScrapeState store) with
      | (.ok _, st) => update_channel_video_stats env channel_id st.maxLast st
      | (r, st) => (r, st)

/-! ## C2: non-public deletion — concrete run -/

/-- A stored record for video `v1` of channel `ch1`. -/
def docC2 : VideoDoc :=
  { id := "v1", title := "t", description := "d", publishedAt := 0, updatedAt := 0,
    views := 0, likes := 0, comments := 0, channel := "ch1", tags := [],
    defaultLanguage := none }

/-- Detail-fetch answer reporting the video private. -/
def detailsPrivate : YouTubeVideoItem :=
  { status := { privacy_status := "private" }
    statistics := { view_count := "0", like_count := none, comment_count := none }
    snippet := { tags := none, default_language := none } }

def entryC2 : Entry :=
  { video_id := "v1", title := "t", published := some 0, group := { description := "d" } }

def envC2 : ScrapeEnv :=
  { httpResp := .ok (200, "")
    parseFeed := fun _ => some [entryC2]
    get_video_details := fun _ => .ok detailsPrivate
    getLookupFails := false
    upsertFails := false
    deleteFails := false
    countFails := false }

def storeC2 : VideoStore := [("v1", docC2)]

/-- C2 (code bug): feed entry `v1` of channel `ch1` is stale (gap
1000000 s ≥ its 1-day threshold), is selected, and the detail fetch
reports it private.  The source then calls
`video_repo.delete(&channel_id)`, so the pass deletes key `ch1` — and
the stored record keyed by the *item* id `v1` survives the pass, while
no upsert occurs.  This contradicts the claimed invariant (and the
code's own log line, which says the *video* is deleted). -/
theorem C2_delete_keyed_by_channel_id :
    (scrape envC2 ("ch1") 1000000 storeC2).1 = .ok () ∧
    (scrape envC2 ("ch1") 1000000 storeC2).2.deletes = ["ch1"] ∧
    (scrape envC2 ("ch1") 1000000 storeC2).2.upserts = [] ∧
    lookupStore (scrape envC2 ("ch1") 1000000 storeC2).2.store ("v1") = some docC2 := by
  decide

/-! ## C8: feed-fetch failure -/

def envC8 : ScrapeEnv :=
  { httpResp := .ok (200, "<bad")
    parseFeed := fun _ => none
    get_video_details := fun _ => .error ("unused")
    getLookupFails := false
    upsertFails := false
    deleteFails := false
    countFails := false }

/-- C8 counterexample: an unparsable feed body does not propagate *as
an error*: the source calls `.expect(...)` on the parse result, which
panics.  At this concrete input `scrape` yields a panic, not an error
(and not a success). -/
theorem C8_counterexample :
    resIsPanic (scrape envC8 ("UC1") 0 []).1 = true ∧
    resIsError (scrape envC8 ("UC1") 0 []).1 = false ∧
    resIsOk (scrape envC8 ("UC1") 0 []).1 = false := by
  decide

/-- C8 (amended): a transport failure or a non-200 response makes
`scrape` return that error, and an unparsable body makes it panic; in
every one of these cases the call aborts before any per-entry
processing — the store is unchanged and no upsert, delete or rollup is
performed (the resulting state is `initScrapeState store`). -/
theorem C8_feed_fetch_aborts_all (env : ScrapeEnv) (channel_id : String) (now : Int)
    (store : VideoStore) :
    (∀ e, env.httpResp = .error e →
      scrape env channel_id now store = (.error e, initScrapeState store)) ∧
    (∀ status body, env.httpResp = .ok (status, body) → status ≠ 200 →
      scrape env channel_id now store =
        (.error ("Youtube Video Feed Response Error: " ++ toString status),
          initScrapeState store)) ∧
    (∀ body, env.httpResp = .ok (200, body) →
      env.parseFeed ((body.replace ("yt:") "yt").replace ("media:") "media") = none →
      scrape env channel_id now store =
        (.panic (YOUTUBE_VIDEO_FEED_BASE_URL ++ "?channel_id=" ++ channel_id
            ++ ", xml string length "
            ++ toString ((body.replace ("yt:") "yt").replace ("media:") "media").length),
          initScrapeState store)) ∧
    ((initScrapeState store).store = store ∧ (initScrapeState store).upserts = [] ∧
      (initScrapeState store).deletes = [] ∧ (initScrapeState store).rollup = none) := by
  refine ⟨fun e h => ?_, fun status body h hs => ?_, fun body h hp => ?_,
    rfl, rfl, rfl, rfl⟩
  · unfold scrape load_and_parse_video_feed
    rw [h]
  · unfold scrape load_and_parse_video_feed
    rw [h]
    simp [hs]
  · unfold scrape load_and_parse_video_feed
    rw [h]
    simp [hp]

/-- Witness for C8: the amended theorem applied to `envC8` (status 200,
unparsable body), discharging its hypotheses at that input. -/
theorem C8_witness :
    scrape envC8 ("UC1") 0 [] =
      (.panic (YOUTUBE_VIDEO_FEED_BASE_URL ++ "?channel_id=" ++ "UC1"
          ++ ", xml string length "
          ++ toString ((("<bad".replace ("yt:") "yt").replace ("media:") "media")).length),
        initScrapeState []) :=
  (C8_feed_fetch_aborts_all envC8 ("UC1") 0 []).2.2.1 ("<bad") rfl rfl

/-! ## C6: rollup failure -/

def envC6 : ScrapeEnv :=
  { httpResp := .ok (200, "")
    parseFeed := fun _ => some []
    get_video_details := fun _ => .error ("unused")
    getLookupFails := false
    upsertFails := false
    deleteFails := false
    countFails := true }

/-- C6 counterexample: everything up to the rollup succeeds (empty
feed, nothing to process), only the count query inside the rollup
fails — and `scrape` returns an error, not success: the `?` on
`self.video_repo.count(...)` and on the `update_channel_video_stats`
call propagate the rollup failure. -/
theorem C6_counterexample :
    (scrape envC6 ("ch1") 0 []).1 = .error ("count failed") ∧
    (scrape envC6 ("ch1") 0 []).1 ≠ .ok () := by
  decide

/-- C6 (amended): the channel-stats *write* has no failure path at
this call site (when the count succeeds the rollup always succeeds and
records `(count, maxLast)`), but a failure of the stored-item-count
query inside the rollup is *not* tolerated: it propagates and `scrape`
returns an error even though the whole entry loop succeeded. -/
theorem C6_rollup_count_propagates (env : ScrapeEnv) (channel_id : String) (now : Int)
    (store : VideoStore) (body : String) (feed : List Entry) (st : ScrapeState)
    (hhttp : env.httpResp = .ok (200, body))
    (hparse : env.parseFeed ((body.replace ("yt:") "yt").replace ("media:") "media")
      = some feed)
    (hlk : env.getLookupFails = false)
    (hloop : scrape_entries env channel_id now (updatedLookup store channel_id) feed
      (initScrapeState store) = (.ok (), st)) :
    (env.countFails = true → (scrape env channel_id now store).1 = .error ("count failed")) ∧
    (env.countFails = false → scrape env channel_id now store =
      (.ok (), { st with rollup := some (storeCount st.store channel_id, st.maxLast) })) := by
  have hload : load_and_parse_video_feed env channel_id = .ok feed := by
    unfold load_and_parse_video_feed
    rw [hhttp]
    simp [hparse]
  constructor
  · intro hc
    unfold scrape
    rw [hload]
    simp only [hlk, Bool.false_eq_true, if_false, hloop]
    unfold update_channel_video_stats
    rw [hc]
    simp
  · intro hc
    unfold scrape
    rw [hload]
    simp only [hlk, Bool.false_eq_true, if_false, hloop]
    unfold update_channel_video_stats
    rw [hc]
    simp

/-- Witness for C6: the amended theorem applied to `envC6` (empty feed,
failing count), all hypotheses discharged there. -/
theorem C6_witness : (scrape envC6 ("ch1") 0 []).1 = .error ("count failed") :=
  (C6_rollup_count_propagates envC6 ("ch1") 0 [] "" [] (initScrapeState [])
    rfl rfl rfl rfl).1 rfl

/-! ## Discovery crawler: `ChannelDiscoveryCrawler` (channel_discovery_crawler.rs) -/

/-- The `snippet.resource_id` of a subscription item. -/
structure ResourceId where
  channel_id : String
  deriving DecidableEq, Repr

/-- One subscription snippet returned by `get_channel_subscriptions`. -/
structure SubscriptionSnippet where
  resource_id : ResourceId
  title : String
  description : String
  deriving DecidableEq, Repr

/-- Model of `commands::crawl_channel_command::CrawlChannelCommand`. -/
structure CrawlChannelCommand where
  channel_id : String
  ignore_guitar_terms : Bool
  deriving DecidableEq, Repr

/-- Result of `GuitarTermsService::has_guitar_term`. -/
structure GuitarTermsResult where
  has_guitar_term : Bool
  deriving DecidableEq, Repr

/-- External collaborators of one discovery-loop iteration: the
settings repository (`get_last_discovery_crawl`, fallible), the
channel repository query and existence checks (fallible, the source
applies `?`), the YouTube subscription fetch (fallible, the source
applies `.unwrap_or(vec![])`), the classifier calls (awaited without
`?`, infallible), and a flag making `sender.send` fail (the `?` on it
propagates). -/
structure DiscoveryEnv where
  get_last_discovery_crawl : Except String Int
  get_ids_upload_last_month : Except String (List String)
  get_channel_subscriptions : String → Except String (List SubscriptionSnippet)
  has_guitar_term : String → String → String → Bool → GuitarTermsResult
  channel_exists : String → Except String Bool
  additional_exists : String → Except String Bool
  is_not_listed_as_non_guitar_channel : String → Bool
  sendFails : Bool

/-- Translation of `is_channel_newly_discovered` (channel_discovery_crawler.rs
119-124). -/
def is_channel_newly_discovered (env : DiscoveryEnv) (channel_id : String) :
    Except String Bool := do
  let channel_exists ← env.channel_exists channel_id
  let additional_exists ← env.additional_exists channel_id
  pure (!channel_exists && !additional_exists)

/-- Translation of `should_crawl` (channel_discovery_crawler.rs 112-117); `Utc::now()`
is the explicit `now`. -/
def should_crawl (env : DiscoveryEnv) (now : Int) : Except String Bool := do
  let last_crawl_timestamp ← env.get_last_discovery_crawl
  pure (decide (now - last_crawl_timestamp ≥ ONE_DAYS_IN_SECONDS))

/-- The body of the inner `for snippet in subscriptions` loop
(channel_discovery_crawler.rs 61-96), accumulating the dispatched
commands; note the classifier is invoked before the dedup checks, as
in the source. -/
def process_subscription (env : DiscoveryEnv) (snippet : SubscriptionSnippet)
    (sent : List CrawlChannelCommand) : Except String (List CrawlChannelCommand) := do
  let sub_channel_id := snippet.resource_id.channel_id
  let guitar_terms_result :=
    env.has_guitar_term sub_channel_id snippet.title snippet.description false
  let is_newly_discovered ← is_channel_newly_discovered env sub_channel_id
  let is_not_non_guitar_channel :=
    env.is_not_listed_as_non_guitar_channel sub_channel_id
  if is_newly_discovered && is_not_non_guitar_channel
      && guitar_terms_result.has_guitar_term then
    if env.sendFails then throw ("send failed")
    else
      pure (sent ++ [{ channel_id := sub_channel_id, ignore_guitar_terms := false }])
  else pure sent

def process_subscriptions (env : DiscoveryEnv) :
    List SubscriptionSnippet → List CrawlChannelCommand →
    Except String (List CrawlChannelCommand)
  | [], sent => pure sent
  | snippet :: rest, sent => do
    let sent' ← process_subscription env snippet sent
    process_subscriptions env rest sent'

/-- The `for channel_id in channel_ids` loop (channel_discovery_crawler.rs
52-98): a failed subscription fetch degrades to `[]` via
`.unwrap_or(vec![])`. -/
def process_channels (env : DiscoveryEnv) :
    List String → List CrawlChannelCommand → Except String (List CrawlChannelCommand)
  | [], sent => pure sent
  | channel_id :: rest, sent => do
    let subscriptions := (env.get_channel_subscriptions channel_id).toOption.getD []
    let sent' ← process_subscriptions env subscriptions sent
    process_channels env rest sent'

/-- What one iteration of the `loop` in `crawl` observably does before
the fixed sleep: the commands sent and, when a pass completed, the
timestamp written by `set_last_discovery_crawl`. -/
structure IterationResult where
  sent : List CrawlChannelCommand
  new_timestamp : Option Int
  ran_pass : Bool
  deriving DecidableEq, Repr

/-- One iteration of the `loop` body of `crawl`
(channel_discovery_crawler.rs 48-109), up to (not including) the
sleep.  `now` is `Utc::now()` at the `should_crawl` check and
`completion_time` is `Utc::now()` at the `set_last_discovery_crawl`
write; an `.error` result is a `?` propagating out of `crawl`,
terminating the loop. -/
def crawl_iteration (env : DiscoveryEnv) (now completion_time : Int) :
    Except String IterationResult :=
  if (should_crawl env now).toOption.getD false then do
    let channel_ids ← env.get_ids_upload_last_month
    let sent ← process_channels env channel_ids []
    pure { sent := sent, new_timestamp := some completion_time, ran_pass := true }
  else
    pure { sent := [], new_timestamp := none, ran_pass := false }

/-! ## C9: settings-read failure skips the pass -/

/-- C9: if reading `lastDiscoveryCrawlTimestamp` fails, the
`unwrap_or(false)` on `should_crawl` swallows the error and treats the
iteration as "not due": nothing is fetched or dispatched, no timestamp
is written, and the iteration ends normally (the loop proceeds to the
sleep rather than terminating). -/
theorem C9_settings_read_failure_skips (env : DiscoveryEnv) (now completion_time : Int)
    (e : String) (h : env.get_last_discovery_crawl = .error e) :
    crawl_iteration env now completion_time =
      .ok { sent := [], new_timestamp := none, ran_pass := false } := by
  unfold crawl_iteration should_crawl
  rw [h]
  rfl

def envW9 : DiscoveryEnv :=
  { get_last_discovery_crawl := .error ("settings read failed")
    get_ids_upload_last_month := .ok []
    get_channel_subscriptions := fun _ => .ok []
    has_guitar_term := fun _ _ _ _ => { has_guitar_term := false }
    channel_exists := fun _ => .ok true
    additional_exists := fun _ => .ok true
    is_not_listed_as_non_guitar_channel := fun _ => true
    sendFails := false }

/-- Witness for C9 at a concrete environment whose settings read
fails. -/
theorem C9_witness :
    crawl_iteration envW9 0 0 =
      .ok { sent := [], new_timestamp := none, ran_pass := false } :=
  C9_settings_read_failure_skips envW9 0 0 ("settings read failed") rfl

/-! ## Iteration shape lemmas -/

/-- When the gate says "not due", the iteration does nothing. -/
theorem crawl_iteration_skip (env : DiscoveryEnv) (now completion_time : Int)
    (h : (should_crawl env now).toOption.getD false = false) :
    crawl_iteration env now completion_time =
      .ok { sent := [], new_timestamp := none, ran_pass := false } := by
  unfold crawl_iteration
  rw [h]
  rfl

/-- When due, a failing channel-list fetch propagates out of the
iteration (the `?` at channel_discovery_crawler.rs line 50). -/
theorem crawl_iteration_ids_error (env : DiscoveryEnv) (now completion_time : Int)
    (e : String) (hdue : (should_crawl env now).toOption.getD false = true)
    (hi : env.get_ids_upload_last_month = .error e) :
    crawl_iteration env now completion_time = .error e := by
  unfold crawl_iteration
  rw [hdue]
  simp [hi, bind, Except.bind]

/-- When due and the channel loop runs to completion, the iteration
reports the dispatched commands and writes the completion time. -/
theorem crawl_iteration_run (env : DiscoveryEnv) (now completion_time : Int)
    (ids : List String) (sent : List CrawlChannelCommand)
    (hdue : (should_crawl env now).toOption.getD false = true)
    (hi : env.get_ids_upload_last_month = .ok ids)
    (hpc : process_channels env ids [] = .ok sent) :
    crawl_iteration env now completion_time =
      .ok { sent := sent, new_timestamp := some completion_time, ran_pass := true } := by
  unfold crawl_iteration
  rw [hdue]
  simp [hi, hpc, bind, Except.bind, pure, Except.pure]

/-- When due, a failing channel loop (existence check or send)
propagates out of the iteration. -/
theorem crawl_iteration_pass_error (env : DiscoveryEnv) (now completion_time : Int)
    (ids : List String) (e : String)
    (hdue : (should_crawl env now).toOption.getD false = true)
    (hi : env.get_ids_upload_last_month = .ok ids)
    (hpc : process_channels env ids [] = .error e) :
    crawl_iteration env now completion_time = .error e := by
  unfold crawl_iteration
  rw [hdue]
  simp [hi, hpc, bind, Except.bind]

/-! ## C4: one-day gate and timestamp advance -/

/-- C4: a pass executes iff the stored timestamp was read and
`now − last ≥ 86400` (inclusive); when not due the iteration does
nothing; and on a completed pass the written timestamp is the
pass-completion time, which (completion after the gate check) is
strictly greater than the previous stored value. -/
theorem C4_discovery_gate (env : DiscoveryEnv) (now completion_time last : Int)
    (h : env.get_last_discovery_crawl = .ok last) :
    (now - last < ONE_DAYS_IN_SECONDS →
      crawl_iteration env now completion_time =
        .ok { sent := [], new_timestamp := none, ran_pass := false }) ∧
    (∀ r, crawl_iteration env now completion_time = .ok r → r.ran_pass = true →
      now - last ≥ ONE_DAYS_IN_SECONDS) ∧
    (∀ r, crawl_iteration env now completion_time = .ok r → r.ran_pass = true →
      completion_time ≥ now →
      r.new_timestamp = some completion_time ∧ last < completion_time) := by
  have hsc : should_crawl env now
      = .ok (decide (now - last ≥ ONE_DAYS_IN_SECONDS)) := by
    unfold should_crawl
    rw [h]
    rfl
  have hdueIff : (should_crawl env now).toOption.getD false
      = decide (now - last ≥ ONE_DAYS_IN_SECONDS) := by
    rw [hsc]
    rfl
  have hranDue : ∀ r, crawl_iteration env now completion_time = .ok r →
      r.ran_pass = true → now - last ≥ ONE_DAYS_IN_SECONDS := by
    intro r hr hp
    by_contra hnot
    rw [crawl_iteration_skip env now completion_time
      (by rw [hdueIff]; simpa using hnot)] at hr
    rw [Except.ok.injEq] at hr
    rw [← hr] at hp
    simp at hp
  refine ⟨fun hlt => ?_, hranDue, fun r hr hp hc => ?_⟩
  · exact crawl_iteration_skip env now completion_time
      (by rw [hdueIff]; simp; omega)
  · have hge := hranDue r hr hp
    have hdue : (should_crawl env now).toOption.getD false = true := by
      rw [hdueIff]
      simpa using hge
    refine ⟨?_, by unfold ONE_DAYS_IN_SECONDS at hge; omega⟩
    cases hi : env.get_ids_upload_last_month with
    | error e =>
      rw [crawl_iteration_ids_error env now completion_time e hdue hi] at hr
      exact absurd hr (by simp)
    | ok ids =>
      cases hpc : process_channels env ids [] with
      | error e =>
        rw [crawl_iteration_pass_error env now completion_time ids e hdue hi hpc] at hr
        exact absurd hr (by simp)
      | ok sent =>
        rw [crawl_iteration_run env now completion_time ids sent hdue hi hpc] at hr
        rw [Except.ok.injEq] at hr
        rw [← hr]

def envW4 : DiscoveryEnv :=
  { get_last_discovery_crawl := .ok 0
    get_ids_upload_last_month := .ok []
    get_channel_subscriptions := fun _ => .ok []
    has_guitar_term := fun _ _ _ _ => { has_guitar_term := false }
    channel_exists := fun _ => .ok true
    additional_exists := fun _ => .ok true
    is_not_listed_as_non_guitar_channel := fun _ => true
    sendFails := false }

/-- Witness for C4: with `last = 0`, `now = 90000` (25 h later) and
completion at `90001`, the pass runs, writes `90001`, and the stored
timestamp strictly advances. -/
theorem C4_witness :
    ({ sent := [], new_timestamp := some 90001, ran_pass := true }
        : IterationResult).new_timestamp = some 90001 ∧ (0 : Int) < 90001 :=
  (C4_discovery_gate envW4 90000 90001 0 rfl).2.2
    { sent := [], new_timestamp := some 90001, ran_pass := true }
    rfl rfl (by norm_num)

/-! ## C3: fetch-failure tolerance in the discovery loop -/

/-- The environment `env` with every failing subscription fetch replaced by a
successful empty result (the effect of `.unwrap_or(vec![])`). -/
def degradeSubs (env : DiscoveryEnv) : DiscoveryEnv :=
  { env with get_channel_subscriptions :=
      fun c => .ok ((env.get_channel_subscriptions c).toOption.getD []) }

theorem process_subscription_degrade (env : DiscoveryEnv)
    (snippet : SubscriptionSnippet) (sent : List CrawlChannelCommand) :
    process_subscription (degradeSubs env) snippet sent
      = process_subscription env snippet sent := rfl

theorem process_subscriptions_degrade (env : DiscoveryEnv) :
    ∀ (subs : List SubscriptionSnippet) (sent : List CrawlChannelCommand),
    process_subscriptions (degradeSubs env) subs sent
      = process_subscriptions env subs sent
  | [], _ => rfl
  | snippet :: rest, sent => by
    simp only [process_subscriptions, process_subscription_degrade]
    cases h : process_subscription env snippet sent with
    | error e => simp [bind, Except.bind, h]
    | ok sent' =>
      simp [bind, Except.bind, h, process_subscriptions_degrade env rest sent']

theorem process_channels_degrade (env : DiscoveryEnv) :
    ∀ (ids : List String) (sent : List CrawlChannelCommand),
    process_channels (degradeSubs env) ids sent = process_channels env ids sent
  | [], _ => rfl
  | c :: rest, sent => by
    simp only [process_channels]
    have hs : ((degradeSubs env).get_channel_subscriptions c).toOption.getD []
        = (env.get_channel_subscriptions c).toOption.getD [] := by
      cases h : env.get_channel_subscriptions c <;>
        simp [degradeSubs, h, Except.toOption]
    rw [hs, process_subscriptions_degrade env
      ((env.get_channel_subscriptions c).toOption.getD []) sent]
    cases h : process_subscriptions env
        ((env.get_channel_subscriptions c).toOption.getD []) sent with
    | error e => simp [bind, Except.bind, h]
    | ok sent' => simp [bind, Except.bind, h, process_channels_degrade env rest sent']

theorem crawl_iteration_degrade (env : DiscoveryEnv) (now completion_time : Int) :
    crawl_iteration (degradeSubs env) now completion_time
      = crawl_iteration env now completion_time := by
  unfold crawl_iteration
  have h1 : should_crawl (degradeSubs env) now = should_crawl env now := rfl
  rw [h1]
  split
  · have h2 : (degradeSubs env).get_ids_upload_last_month
        = env.get_ids_upload_last_month := rfl
    rw [h2]
    cases hi : env.get_ids_upload_last_month with
    | error e => simp [bind, Except.bind]
    | ok ids => simp [bind, Except.bind, process_channels_degrade env ids []]
  · rfl

def envC3 : DiscoveryEnv :=
  { get_last_discovery_crawl := .ok 0
    get_ids_upload_last_month := .error ("channel list fetch failed")
    get_channel_subscriptions := fun _ => .ok []
    has_guitar_term := fun _ _ _ _ => { has_guitar_term := false }
    channel_exists := fun _ => .ok true
    additional_exists := fun _ => .ok true
    is_not_listed_as_non_guitar_channel := fun _ => true
    sendFails := false }

/-- C3 counterexample: with the gate due, a failing tracked-channel-list
fetch is *not* degraded to an empty result: the `?` at
channel_discovery_crawler.rs line 50 propagates the error out of the
iteration, terminating the `crawl` loop. -/
theorem C3_counterexample :
    crawl_iteration envC3 ONE_DAYS_IN_SECONDS ONE_DAYS_IN_SECONDS
      = .error ("channel list fetch failed") := by
  exact crawl_iteration_ids_error envC3 ONE_DAYS_IN_SECONDS ONE_DAYS_IN_SECONDS
    "channel list fetch failed" rfl rfl

/-- C3 (amended): only the per-channel *subscription* fetch failure is
tolerated — replacing every failing subscription fetch by a successful
empty result changes nothing about the iteration, so such a failure
never aborts the loop; a failure of the tracked-channel-*list* fetch,
by contrast, propagates and aborts the pass (and the loop). -/
theorem C3_subscription_tolerated_channel_list_not (env : DiscoveryEnv)
    (now completion_time : Int) :
    (crawl_iteration (degradeSubs env) now completion_time
      = crawl_iteration env now completion_time) ∧
    (∀ e, (should_crawl env now).toOption.getD false = true →
      env.get_ids_upload_last_month = .error e →
      crawl_iteration env now completion_time = .error e) :=
  ⟨crawl_iteration_degrade env now completion_time,
    fun e hdue hi => crawl_iteration_ids_error env now completion_time e hdue hi⟩

def envW3 : DiscoveryEnv :=
  { envC3 with get_ids_upload_last_month := .error ("db down") }

/-- Witness for C3 at a concrete environment: the channel-list fetch
fails with "db down" while the gate is due, and the iteration
propagates exactly that error. -/
theorem C3_witness : crawl_iteration envW3 172800 172800 = .error ("db down") :=
  (C3_subscription_tolerated_channel_list_not envW3 172800 172800).2 ("db down") rfl rfl

/-! ## C5: the Discovery Gate -/

/-- The Discovery Gate as the spec words it: the candidate id is absent
from both registries, is not on the non-guitar denylist, and the
classifier reports a domain-term match (spec-side definition;
`tracked`/`manual` are the two existence predicates behind the
repositories). -/
def discovery_gate (tracked manual : String → Bool) (env : DiscoveryEnv)
    (snippet : SubscriptionSnippet) : Bool :=
  (!tracked snippet.resource_id.channel_id
      && !manual snippet.resource_id.channel_id)
    && env.is_not_listed_as_non_guitar_channel snippet.resource_id.channel_id
    && (env.has_guitar_term snippet.resource_id.channel_id snippet.title
        snippet.description false).has_guitar_term

/-- The command dispatched for a qualifying candidate. -/
def toCommand (snippet : SubscriptionSnippet) : CrawlChannelCommand :=
  { channel_id := snippet.resource_id.channel_id, ignore_guitar_terms := false }

theorem process_subscription_gate (env : DiscoveryEnv) (tracked manual : String → Bool)
    (hce : env.channel_exists = fun c => .ok (tracked c))
    (hae : env.additional_exists = fun c => .ok (manual c))
    (hsend : env.sendFails = false)
    (snippet : SubscriptionSnippet) (sent : List CrawlChannelCommand) :
    process_subscription env snippet sent =
      .ok (sent ++ (if discovery_gate tracked manual env snippet
        then [toCommand snippet] else [])) := by
  unfold process_subscription is_channel_newly_discovered discovery_gate toCommand
  rw [hce, hae, hsend]
  simp only [bind, Except.bind, pure, Except.pure]
  split
  · simp
  · simp

theorem except_bind_ok {α β : Type} (a : α) (f : α → Except String β) :
    (bind (Except.ok a) f : Except String β) = f a := rfl

/-- All subscription candidates of a pass, in the order the loops see
them (failed fetches degraded to `[]`, as `.unwrap_or(vec![])` does). -/
def gatherSubs (env : DiscoveryEnv) : List String → List SubscriptionSnippet
  | [] => []
  | c :: rest =>
    ((env.get_channel_subscriptions c).toOption.getD []) ++ gatherSubs env rest

theorem process_subscriptions_gate (env : DiscoveryEnv)
    (tracked manual : String → Bool)
    (hce : env.channel_exists = fun c => .ok (tracked c))
    (hae : env.additional_exists = fun c => .ok (manual c))
    (hsend : env.sendFails = false) :
    ∀ (subs : List SubscriptionSnippet) (sent : List CrawlChannelCommand),
    process_subscriptions env subs sent =
      .ok (sent ++ (subs.filter (discovery_gate tracked manual env)).map toCommand)
  | [], sent => by simp [process_subscriptions, pure, Except.pure]
  | snippet :: rest, sent => by
    simp only [process_subscriptions]
    rw [process_subscription_gate env tracked manual hce hae hsend snippet sent,
      except_bind_ok,
      process_subscriptions_gate env tracked manual hce hae hsend rest _]
    cases hgate : discovery_gate tracked manual env snippet <;>
      simp [List.filter_cons, hgate]

theorem process_channels_gate (env : DiscoveryEnv)
    (tracked manual : String → Bool)
    (hce : env.channel_exists = fun c => .ok (tracked c))
    (hae : env.additional_exists = fun c => .ok (manual c))
    (hsend : env.sendFails = false) :
    ∀ (ids : List String) (sent : List CrawlChannelCommand),
    process_channels env ids sent =
      .ok (sent ++ ((gatherSubs env ids).filter
            (discovery_gate tracked manual env)).map toCommand)
  | [], sent => by simp [process_channels, gatherSubs, pure, Except.pure]
  | c :: rest, sent => by
    simp only [process_channels, gatherSubs]
    rw [process_subscriptions_gate env tracked manual hce hae hsend
      ((env.get_channel_subscriptions c).toOption.getD []) sent,
      except_bind_ok,
      process_channels_gate env tracked manual hce hae hsend rest _]
    simp [List.filter_append, List.append_assoc]

/-- C5: with the repositories answering the existence checks, a
`CrawlCommand{channelId, ignoreGuitarTerms=false}` is dispatched for
exactly the subscription candidates passing all three checks (absent
from both registries, not on the non-guitar denylist, positive
classifier match): the sent command list of a pass is the gate-filtered
candidate list mapped to commands, in order. -/
theorem C5_discovery_gate_dispatch (env : DiscoveryEnv) (now completion_time : Int)
    (tracked manual : String → Bool) (ids : List String)
    (hce : env.channel_exists = fun c => .ok (tracked c))
    (hae : env.additional_exists = fun c => .ok (manual c))
    (hsend : env.sendFails = false)
    (hdue : (should_crawl env now).toOption.getD false = true)
    (hi : env.get_ids_upload_last_month = .ok ids) :
    crawl_iteration env now completion_time =
      .ok { sent := ((gatherSubs env ids).filter
                (discovery_gate tracked manual env)).map toCommand
            new_timestamp := some completion_time
            ran_pass := true } := by
  have hpc := process_channels_gate env tracked manual hce hae hsend ids []
  rw [List.nil_append] at hpc
  exact crawl_iteration_run env now completion_time ids _ hdue hi hpc

def snipW5 : SubscriptionSnippet :=
  { resource_id := { channel_id := "C1" }, title := "guitar lessons",
    description := "learn guitar" }

def envW5 : DiscoveryEnv :=
  { get_last_discovery_crawl := .ok 0
    get_ids_upload_last_month := .ok ["c0"]
    get_channel_subscriptions := fun _ => .ok [snipW5]
    has_guitar_term := fun _ _ _ _ => { has_guitar_term := true }
    channel_exists := fun _ => .ok false
    additional_exists := fun _ => .ok false
    is_not_listed_as_non_guitar_channel := fun _ => true
    sendFails := false }

/-- Witness for C5: candidate `C1`, absent from both registries, not
denylisted, positively classified — exactly one
`CrawlCommand{channelId := "C1", ignoreGuitarTerms := false}` is
dispatched. -/
theorem C5_witness :
    crawl_iteration envW5 86400 86401 =
      .ok { sent := [{ channel_id := "C1", ignore_guitar_terms := false }]
            new_timestamp := some 86401
            ran_pass := true } := by
  rw [C5_discovery_gate_dispatch envW5 86400 86401 (fun _ => false) (fun _ => false)
    ["c0"] rfl rfl rfl rfl rfl]
  rfl

/-! ## C10: the rollup's lastUpload value -/

/-- Spec-side definition: the published timestamps of exactly those
feed entries that the Freshness Policy selects *and* whose detail
fetch reports "public", in feed order. -/
def selected_public_published (env : ScrapeEnv) (now : Int)
    (updated_lookup : String → Option Int) (entries : List Entry) : List Int :=
  entries.filterMap fun e =>
    match e.published with
    | none => none
    | some p =>
      if should_update_video now updated_lookup e.video_id p then
        match env.get_video_details e.video_id with
        | .ok d => if d.status.privacy_status = "public" then some p else none
        | .error _ => none
      else none

theorem load_ok (env : ScrapeEnv) (channel_id body : String) (feed : List Entry)
    (hhttp : env.httpResp = .ok (200, body))
    (hparse : env.parseFeed ((body.replace ("yt:") "yt").replace ("media:") "media")
      = some feed) :
    load_and_parse_video_feed env channel_id = .ok feed := by
  unfold load_and_parse_video_feed
  rw [hhttp]
  simp [hparse]

/-- On a successful entry loop, the `max_last_upload_timestamp`
accumulator folds the selected-and-public published timestamps (and
nothing else) over its starting value. -/
theorem scrape_entries_maxLast (env : ScrapeEnv) (channel_id : String) (now : Int)
    (lk : String → Option Int) :
    ∀ (entries : List Entry) (st st' : ScrapeState),
    scrape_entries env channel_id now lk entries st = (.ok (), st') →
    st'.maxLast = (selected_public_published env now lk entries).foldl
      (fun m p => if p > m then p else m) st.maxLast
  | [], st, st', h => by
    simp only [scrape_entries, Prod.mk.injEq] at h
    rw [← h.2]
    simp [selected_public_published]
  | e :: rest, st, st', h => by
    simp only [scrape_entries] at h
    simp only [selected_public_published, List.filterMap_cons]
    cases hp : e.published with
    | none =>
      rw [hp] at h
      simp at h
    | some p =>
      rw [hp] at h
      dsimp only at h
      simp only [hp]
      by_cases hsel : should_update_video now lk e.video_id p = true
      · rw [if_pos hsel] at h
        simp only [hsel, if_true]
        cases hd : env.get_video_details e.video_id with
        | error er =>
          rw [hd] at h
          simp at h
        | ok d =>
          rw [hd] at h
          dsimp only at h
          simp only [hd]
          by_cases hpub : d.status.privacy_status = "public"
          · rw [if_neg (by simp [hpub])] at h
            simp only [if_pos hpub]
            cases hup : env.upsertFails with
            | true =>
              rw [hup] at h
              simp at h
            | false =>
              rw [hup] at h
              simp only [Bool.false_eq_true, if_false] at h
              have ih := scrape_entries_maxLast env channel_id now lk rest _ st' h
              simpa using ih
          · rw [if_pos (by simp [hpub])] at h
            simp only [if_neg hpub]
            cases hdel : env.deleteFails with
            | true =>
              rw [hdel] at h
              simp at h
            | false =>
              rw [hdel] at h
              simp only [Bool.false_eq_true, if_false] at h
              have ih := scrape_entries_maxLast env channel_id now lk rest _ st' h
              simpa using ih
      · rw [if_neg hsel] at h
        simp only [if_neg hsel]
        exact scrape_entries_maxLast env channel_id now lk rest st st' h

/-- Dissection of a successful `scrape`: the entry loop succeeded and
the final state is the loop state with the rollup recorded. -/
theorem scrape_ok_elim (env : ScrapeEnv) (channel_id : String) (now : Int)
    (store : VideoStore) (body : String) (feed : List Entry) (st1 : ScrapeState)
    (hhttp : env.httpResp = .ok (200, body))
    (hparse : env.parseFeed ((body.replace ("yt:") "yt").replace ("media:") "media")
      = some feed)
    (h : scrape env channel_id now store = (.ok (), st1)) :
    ∃ st', scrape_entries env channel_id now (updatedLookup store channel_id) feed
        (initScrapeState store) = (.ok (), st')
      ∧ st1.store = st'.store ∧ st1.upserts = st'.upserts ∧ st1.deletes = st'.deletes
      ∧ st1.maxLast = st'.maxLast
      ∧ st1.rollup = some (storeCount st'.store channel_id, st'.maxLast) := by
  unfold scrape at h
  rw [load_ok env channel_id body feed hhttp hparse] at h
  cases hlk : env.getLookupFails with
  | true =>
    rw [hlk] at h
    simp at h
  | false =>
    rw [hlk] at h
    simp only [Bool.false_eq_true, if_false] at h
    cases hse : scrape_entries env channel_id now (updatedLookup store channel_id) feed
        (initScrapeState store) with
    | mk r st' =>
      rw [hse] at h
      cases r with
      | ok u =>
        cases u
        dsimp only at h
        unfold update_channel_video_stats at h
        cases hcf : env.countFails with
        | true =>
          rw [hcf] at h
          simp at h
        | false =>
          rw [hcf] at h
          simp only [Bool.false_eq_true, if_false, Prod.mk.injEq] at h
          refine ⟨st', ?_, ?_, ?_, ?_, ?_, ?_⟩
          · rfl
          all_goals rw [← h.2]
      | error e =>
        dsimp only at h
        simp at h
      | panic m =>
        dsimp only at h
        simp at h

/-- C10: the `lastUploadTimestamp` handed to the rollup is the fold of
`max` (started at 0) over the published timestamps of exactly the
entries that the Freshness Policy selected and whose authoritative
status was "public"; in particular a pass in which no entry is both
selected and public writes 0, whatever `publishedAt` values the feed
contains. -/
theorem C10_rollup_last_upload (env : ScrapeEnv) (channel_id : String) (now : Int)
    (store : VideoStore) (body : String) (feed : List Entry) (st1 : ScrapeState)
    (hhttp : env.httpResp = .ok (200, body))
    (hparse : env.parseFeed ((body.replace ("yt:") "yt").replace ("media:") "media")
      = some feed)
    (h : scrape env channel_id now store = (.ok (), st1)) :
    st1.rollup = some (storeCount st1.store channel_id,
      (selected_public_published env now (updatedLookup store channel_id) feed).foldl
        (fun m p => if p > m then p else m) 0) ∧
    (selected_public_published env now (updatedLookup store channel_id) feed = [] →
      st1.rollup = some (storeCount st1.store channel_id, 0)) := by
  obtain ⟨st', hse, hst, -, -, -, hroll⟩ :=
    scrape_ok_elim env channel_id now store body feed st1 hhttp hparse h
  have hmax := scrape_entries_maxLast env channel_id now
    (updatedLookup store channel_id) feed (initScrapeState store) st' hse
  simp only [initScrapeState] at hmax
  constructor
  · rw [hroll, hst, hmax]
  · intro hempty
    rw [hroll, hst, hmax, hempty]
    rfl

/-! ## C7: idempotence of an immediate second pass -/


theorem lookupStore_delete (key v : String) (hv : v ≠ key) :
    ∀ (s : VideoStore), lookupStore (storeDelete s key) v = lookupStore s v
  | [] => rfl
  | (k, d) :: rest => by
    simp only [storeDelete, List.filter_cons]
    by_cases hk : k = key
    · rw [if_neg (by simp [hk])]
      have hkv : ¬(k = v) := by
        rw [hk]
        exact fun hh => hv hh.symm
      rw [lookupStore, if_neg hkv]
      exact lookupStore_delete key v hv rest
    · rw [if_pos (by simp [hk])]
      rw [lookupStore, lookupStore]
      by_cases hkv : k = v
      · rw [if_pos hkv, if_pos hkv]
      · rw [if_neg hkv, if_neg hkv]
        exact lookupStore_delete key v hv rest

theorem lookupStore_upsert (key v : String) (d : VideoDoc) :
    ∀ (s : VideoStore), lookupStore (storeUpsert s key d) v
      = if key = v then some d else lookupStore s v
  | [] => by
    simp only [storeUpsert, lookupStore]
  | (k, e) :: rest => by
    simp only [storeUpsert]
    by_cases hk : k = key
    · simp only [if_pos hk, lookupStore]
      by_cases hkv : key = v
      · simp [hkv]
      · simp only [if_neg hkv, lookupStore]
        rw [if_neg (by rw [hk]; exact hkv)]
    · simp only [if_neg hk, lookupStore]
      by_cases hkv : k = v
      · have hnkv : ¬(key = v) := by rw [← hkv]; exact fun hh => hk hh.symm
        simp [hkv, hnkv]
      · simp only [if_neg hkv]
        exact lookupStore_upsert key v d rest

theorem scrape_entries_store_after (env : ScrapeEnv) (channel_id : String) (now : Int)
    (lk : String → Option Int) :
    ∀ (entries : List Entry) (st st' : ScrapeState),
    scrape_entries env channel_id now lk entries st = (.ok (), st') →
    ∀ v, v ≠ channel_id →
      ((lookupStore st'.store v = lookupStore st.store v
          ∧ (v ∈ st'.upserts ↔ v ∈ st.upserts))
        ∨ (∃ d, lookupStore st'.store v = some d ∧ d.updatedAt = now
            ∧ d.channel = channel_id ∧ v ∈ st'.upserts))
  | [], st, st', h => by
    simp only [scrape_entries, Prod.mk.injEq] at h
    rw [← h.2]
    intro v hv
    exact Or.inl ⟨rfl, Iff.rfl⟩
  | e :: rest, st, st', h => by
    simp only [scrape_entries] at h
    intro v hv
    cases hp : e.published with
    | none =>
      rw [hp] at h
      simp at h
    | some p =>
      rw [hp] at h
      dsimp only at h
      by_cases hsel : should_update_video now lk e.video_id p = true
      · rw [if_pos hsel] at h
        cases hd : env.get_video_details e.video_id with
        | error er =>
          rw [hd] at h
          simp at h
        | ok d =>
          rw [hd] at h
          dsimp only at h
          by_cases hpub : d.status.privacy_status = "public"
          · rw [if_neg (by simp [hpub])] at h
            cases hup : env.upsertFails with
            | true =>
              rw [hup] at h
              simp at h
            | false =>
              rw [hup] at h
              simp only [Bool.false_eq_true, if_false] at h
              have ih := scrape_entries_store_after env channel_id now lk rest _ st' h v hv
              by_cases hvid : e.video_id = v
              · cases ih with
                | inl hA =>
                  refine Or.inr ⟨build_video_document channel_id e p now d, ?_, rfl, rfl, ?_⟩
                  · rw [hA.1]
                    dsimp only
                    rw [lookupStore_upsert, if_pos hvid]
                  · rw [hA.2]
                    dsimp only
                    simp [hvid]
                | inr hB => exact Or.inr hB
              · cases ih with
                | inl hA =>
                  refine Or.inl ⟨?_, ?_⟩
                  · rw [hA.1]
                    dsimp only
                    rw [lookupStore_upsert, if_neg hvid]
                  · rw [hA.2]
                    dsimp only
                    simp [List.mem_append]
                    intro hh
                    exact absurd hh.symm hvid
                | inr hB => exact Or.inr hB
          · rw [if_pos (by simp [hpub])] at h
            cases hdel : env.deleteFails with
            | true =>
              rw [hdel] at h
              simp at h
            | false =>
              rw [hdel] at h
              simp only [Bool.false_eq_true, if_false] at h
              have ih := scrape_entries_store_after env channel_id now lk rest _ st' h v hv
              cases ih with
              | inl hA =>
                refine Or.inl ⟨?_, ?_⟩
                · rw [hA.1]
                  dsimp only
                  exact lookupStore_delete channel_id v hv st.store
                · exact hA.2
              | inr hB => exact Or.inr hB
      · rw [if_neg hsel] at h
        exact scrape_entries_store_after env channel_id now lk rest st st' h v hv

/-- A pair whose first component is a success equals the success pair
on its own second component. -/
theorem pair_eta_ok {β : Type} (x : Res Unit × β) (h1 : x.1 = .ok ()) :
    x = (.ok (), x.2) := by
  obtain ⟨a, b⟩ := x
  simp only at h1
  rw [h1]

theorem should_update_video_congr (now : Int) (lk1 lk2 : String → Option Int)
    (video_id : String) (published_at : Int) (h : lk1 video_id = lk2 video_id) :
    should_update_video now lk1 video_id published_at
      = should_update_video now lk2 video_id published_at := by
  unfold should_update_video
  rw [h]

/-- A record refreshed at `now` (gap 0) is never selected again at
`now`: every threshold tier is at least 3 hours. -/
theorem should_update_video_at_now (now : Int) (lk : String → Option Int)
    (video_id : String) (published_at : Int) (h : lk video_id = some now) :
    should_update_video now lk video_id published_at = false := by
  rw [should_update_video_spec now lk video_id published_at now h]
  have h3 := thresholdSpec_ge_three_hours |now - published_at|
  simp only [ONE_HOUR_IN_SECONDS] at h3
  rw [sub_self, abs_zero]
  simp only [decide_eq_false_iff_not, ge_iff_le, not_le]
  omega

/-- C7: after a successful ingestion pass at time `now`, an immediately
following second pass over the same feed (same `now`, no upstream
changes) selects none of the entries the claim covers: an entry
upserted by the first pass now carries `updatedAt = now` (gap 0), and
an entry that was already within its freshness window still is, since
its stored record was untouched.  The side condition `video_id ≠
channel_id` keeps the (buggy, cf. C2) channel-id-keyed delete from
touching the records of the feed's own entries. -/
theorem C7_second_pass_no_refresh (env : ScrapeEnv) (channel_id : String) (now : Int)
    (store : VideoStore) (body : String) (feed : List Entry) (st1 : ScrapeState)
    (hhttp : env.httpResp = .ok (200, body))
    (hparse : env.parseFeed ((body.replace ("yt:") "yt").replace ("media:") "media")
      = some feed)
    (h : scrape env channel_id now store = (.ok (), st1))
    (hids : ∀ e ∈ feed, e.video_id ≠ channel_id) :
    ∀ e ∈ feed, ∀ p, e.published = some p →
      (e.video_id ∈ st1.upserts ∨
        should_update_video now (updatedLookup store channel_id) e.video_id p = false) →
      should_update_video now (updatedLookup st1.store channel_id) e.video_id p
        = false := by
  obtain ⟨st', hse, hst, hup, -, -, -⟩ :=
    scrape_ok_elim env channel_id now store body feed st1 hhttp hparse h
  intro e he p hp hcase
  have hv : e.video_id ≠ channel_id := hids e he
  have hafter := scrape_entries_store_after env channel_id now
    (updatedLookup store channel_id) feed (initScrapeState store) st' hse
    e.video_id hv
  cases hafter with
  | inl hA =>
    have heqlk : updatedLookup st1.store channel_id e.video_id
        = updatedLookup store channel_id e.video_id := by
      unfold updatedLookup
      rw [hst, hA.1]
      rfl
    cases hcase with
    | inl hupserted =>
      exfalso
      rw [hup] at hupserted
      have hmem := hA.2.mp hupserted
      simp [initScrapeState] at hmem
    | inr hnot =>
      rw [should_update_video_congr now _ _ e.video_id p heqlk]
      exact hnot
  | inr hB =>
    obtain ⟨d, hlk, hupd, hch, -⟩ := hB
    apply should_update_video_at_now
    unfold updatedLookup
    rw [hst, hlk]
    simp [hch, hupd]

/-- Detail-fetch answer reporting the video public. -/
def detailsPublic : YouTubeVideoItem :=
  { status := { privacy_status := "public" }
    statistics := { view_count := "100", like_count := none, comment_count := none }
    snippet := { tags := none, default_language := none } }

/-- A record of channel `ch` refreshed at time 1000. -/
def docW7 : VideoDoc :=
  { id := "v1", title := "t", description := "d", publishedAt := 0, updatedAt := 1000,
    views := 0, likes := 0, comments := 0, channel := "ch", tags := [],
    defaultLanguage := none }

def entryW7a : Entry :=
  { video_id := "v1", title := "t", published := some 0, group := { description := "d" } }

def entryW7b : Entry :=
  { video_id := "v2", title := "t2", published := some 600,
    group := { description := "d2" } }

def envW7 : ScrapeEnv :=
  { httpResp := .ok (200, "")
    parseFeed := fun _ => some [entryW7a, entryW7b]
    get_video_details := fun _ => .ok detailsPublic
    getLookupFails := false
    upsertFails := false
    deleteFails := false
    countFails := false }

def storeW7 : VideoStore := [("v1", docW7)]

/-- Witness for C7: after the pass at `now = 1000` that upserted the
new entry `v2`, an immediate second freshness check on `v2` answers
`false`. -/
theorem C7_witness :
    should_update_video 1000
      (updatedLookup (scrape envW7 ("ch") 1000 storeW7).2.store ("ch")) "v2" 600
      = false :=
  C7_second_pass_no_refresh envW7 ("ch") 1000 storeW7 ("") [entryW7a, entryW7b]
    (scrape envW7 ("ch") 1000 storeW7).2 rfl rfl (pair_eta_ok _ (by decide)) (by decide)
    entryW7b (by decide) 600 rfl (Or.inl (by decide))

def entryW10 : Entry :=
  { video_id := "w1", title := "t", published := some 500,
    group := { description := "d" } }

def envW10 : ScrapeEnv :=
  { httpResp := .ok (200, "")
    parseFeed := fun _ => some [entryW10]
    get_video_details := fun _ => .ok detailsPublic
    getLookupFails := false
    upsertFails := false
    deleteFails := false
    countFails := false }

/-- Witness for C10: one never-tracked public entry published at 500 —
the rollup records the stored count and the fold of the selected-and-
public published timestamps. -/
theorem C10_witness :
    (scrape envW10 ("chW") 1000 []).2.rollup
      = some (storeCount (scrape envW10 ("chW") 1000 []).2.store ("chW"),
        (selected_public_published envW10 1000 (updatedLookup [] "chW")
            [entryW10]).foldl (fun m p => if p > m then p else m) 0) :=
  (C10_rollup_last_upload envW10 ("chW") 1000 [] "" [entryW10]
    (scrape envW10 ("chW") 1000 []).2 rfl rfl (pair_eta_ok _ (by decide))).1

end Crawler
